import Mathlib

/-!
Verification of the Remote ID detection system (Parfait-17/Detection_droneV3).

This file shallowly embeds the byte-level Remote ID decoder
(`src/remote_id_decoder.py`), the Wi-Fi / BLE acceptance filters
(`main_gnuradio_wifi.py`, `src/ble_scanner.py`), the threat assessment
(`src/data_fusion.py`), the channel-plan parser (`main_gnuradio_wifi.py`)
and the band-pass guard (`src/preprocessing.py`), and proves or refutes
the frozen specification claims about them.

Conventions of the embedding:
* A Python `bytes` value is a `List Nat` of byte values.
* A Python `str` is a `List Nat` of Unicode code points (`Str` below).
* Python floats produced by the fixed-point decodings are modelled as `ℚ`
  (all decodings in the source are small integer multiples of 2^-2, 2^-1 or
  10^-7, exact in both binary floating point and `ℚ`).
* `None` becomes `Option.none`; truthiness of an optional string is
  "present and non-empty", of an optional number "present and non-zero".
* Wall-clock reads (`datetime.now().timestamp()`) become an explicit `now`
  parameter threaded to the functions that store it.
-/

set_option maxRecDepth 100000

namespace DroneRID

/-- Python strings as lists of Unicode code points. -/
abbrev Str := List Nat

/-- Code points of a Lean string literal, used to embed Python string
literals. -/
def strCodes (s : String) : Str := s.data.map Char.toNat

/-- ASCII lowercase of one code point (Python `str.lower` restricted to the
ASCII letters, the only ones appearing in the strings this system builds). -/
def lowerCode (c : Nat) : Nat := if 65 ≤ c ∧ c ≤ 90 then c + 32 else c

/-- ASCII lowercase of a string, embedding Python `str.lower()` on the
ASCII-only strings produced by the decoder. -/
def lowerStr (s : Str) : Str := s.map lowerCode

/-- `needle` occurs at the head of `hay` (Python `bytes.startswith`, and the
one-position test of `bytes.find`). -/
def headMatches : Str → Str → Bool
  | [], _ => true
  | _ :: _, [] => false
  | a :: as, b :: bs => a = b && headMatches as bs

/-- First index at which `needle` occurs in `hay`: Python `bytes.find`
returning `none` for `-1`. -/
def findSubIdx (needle : Str) (hay : Str) : Option Nat :=
  match hay with
  | [] => if needle = [] then some 0 else none
  | _ :: rest =>
    if headMatches needle hay then some 0
    else (findSubIdx needle rest).map (· + 1)

/-- `needle` occurs somewhere in `hay` (Python `in` on `str`/`bytes`). -/
def containsSub (needle hay : Str) : Bool := (findSubIdx needle hay).isSome

/-- Uppercase hex digit of a value below 16. -/
def hexDigit (n : Nat) : Nat := if n < 10 then 48 + n else 55 + n

/-- Python `bytes.hex().upper()`: two uppercase hex digits per byte. -/
def hexUpper (b : List Nat) : Str :=
  b.flatMap (fun x => [hexDigit (x / 16), hexDigit (x % 16)])

/-- Signed value of one byte (Python `struct.unpack('b', ...)`). -/
def sint8 (b : Nat) : Int := if b < 128 then (b : Int) else (b : Int) - 256

/-- Little-endian signed 16-bit value of two bytes
(Python `struct.unpack('<h', ...)`). -/
def sint16LE (b0 b1 : Nat) : Int :=
  let v := b0 + 256 * b1
  if v < 32768 then (v : Int) else (v : Int) - 65536

/-- Little-endian signed 32-bit value of four bytes
(Python `struct.unpack('<i', ...)`). -/
def sint32LE (b0 b1 b2 b3 : Nat) : Int :=
  let v := b0 + 256 * b1 + 65536 * b2 + 16777216 * b3
  if v < 2147483648 then (v : Int) else (v : Int) - 4294967296

/-- A code point is a UTF-8 continuation byte (`0x80`–`0xBF`). -/
def isCont (c : Nat) : Bool := 128 ≤ c && c ≤ 191

/-- Valid range of the first continuation byte after lead byte `lead`,
following the UTF-8 validation CPython performs (surrogates and overlong
encodings rejected at the first continuation byte). -/
def contOK (lead c1 : Nat) : Bool :=
  if lead = 224 then 160 ≤ c1 && c1 ≤ 191
  else if lead = 237 then 128 ≤ c1 && c1 ≤ 159
  else if lead = 240 then 144 ≤ c1 && c1 ≤ 191
  else if lead = 244 then 128 ≤ c1 && c1 ≤ 143
  else isCont c1

/-- One step of CPython's UTF-8 decoder with `errors='ignore'`: given a lead
byte and the bytes after it, return the decoded code point (or `none` when
the sequence is invalid and dropped) and how many bytes of `rest` the step
consumed (the maximal valid subpart, per CPython's error ranges; under
`ignore` the exact grouping of skipped invalid bytes does not alter the
output string). -/
def utf8Step (b : Nat) (rest : List Nat) : Option Nat × Nat :=
  if b < 128 then (some b, 0)
  else if b < 194 then (none, 0)
  else if b < 224 then
    match rest with
    | c1 :: _ => if isCont c1 then (some ((b - 192) * 64 + (c1 - 128)), 1) else (none, 0)
    | [] => (none, 0)
  else if b < 240 then
    match rest with
    | c1 :: c2 :: _ =>
      if contOK b c1 then
        if isCont c2 then (some ((b - 224) * 4096 + (c1 - 128) * 64 + (c2 - 128)), 2)
        else (none, 1)
      else (none, 0)
    | [c1] => if contOK b c1 then (none, 1) else (none, 0)
    | [] => (none, 0)
  else if b < 245 then
    match rest with
    | c1 :: c2 :: c3 :: _ =>
      if contOK b c1 then
        if isCont c2 then
          if isCont c3 then
            (some ((b - 240) * 262144 + (c1 - 128) * 4096 + (c2 - 128) * 64 + (c3 - 128)), 3)
          else (none, 2)
        else (none, 1)
      else (none, 0)
    | [c1, c2] =>
      if contOK b c1 then (if isCont c2 then (none, 2) else (none, 1)) else (none, 0)
    | [c1] => if contOK b c1 then (none, 1) else (none, 0)
    | [] => (none, 0)
  else (none, 0)

/-- Fuel-driven worker for `utf8DecodeIgnore` (the fuel only serves
structural recursion; `l.length` fuel is always enough). -/
def utf8DecodeIgnoreAux : Nat → List Nat → Str
  | 0, _ => []
  | _ + 1, [] => []
  | fuel + 1, b :: rest =>
    let step := utf8Step b rest
    (match step.1 with
     | some cp => [cp]
     | none => []) ++ utf8DecodeIgnoreAux fuel (rest.drop step.2)

/-- Python `bytes.decode('utf-8', errors='ignore')`: decode, silently
dropping invalid sequences. -/
def utf8DecodeIgnore (l : List Nat) : Str := utf8DecodeIgnoreAux l.length l

/-- Python `str.rstrip('\x00')`: drop trailing NUL code points. -/
def rstripNul (s : Str) : Str := (s.reverse.dropWhile (· = 0)).reverse

/-- A code point is printable ASCII, `0x20`–`0x7E`. -/
def isPrintable (c : Nat) : Bool := 32 ≤ c && c ≤ 126

/-- `WiFiRemoteIDDecoder._decode_printable` (src/src/remote_id_decoder.py:158):
UTF-8-decode ignoring errors, trim trailing NULs, keep printable ASCII;
fall back to uppercase hex of the original bytes when fewer than
`max(6, len(s) // 2)` characters survive. -/
def decodePrintable (b : List Nat) : Str :=
  let s := rstripNul (utf8DecodeIgnore b)
  let printable := s.filter isPrintable
  if printable.length ≥ max 6 (s.length / 2) then printable else hexUpper b

/-- The `RemoteIDData` dataclass (src/src/remote_id_decoder.py:18): every
payload field optional, `None` by default. -/
structure RemoteIDData where
  uas_id : Option Str := none
  uas_id_type : Option Str := none
  latitude : Option ℚ := none
  longitude : Option ℚ := none
  altitude_msl : Option ℚ := none
  altitude_agl : Option ℚ := none
  height : Option ℚ := none
  speed : Option ℚ := none
  direction : Option ℚ := none
  vertical_speed : Option ℚ := none
  operator_latitude : Option ℚ := none
  operator_longitude : Option ℚ := none
  operator_altitude : Option ℚ := none
  operator_id : Option Str := none
  timestamp : Option ℚ := none
  status : Option Str := none
  classification : Option Str := none
  self_id_text : Option Str := none
  auth_type : Option Nat := none
  auth_page_index : Option Nat := none
  auth_last_page_index : Option Nat := none
  auth_payload : Option (List Nat) := none
  system_category : Option Nat := none
  system_eu_class : Option Nat := none
  system_operator_location_type : Option Nat := none
  deriving DecidableEq, Repr

/-- `WiFiRemoteIDDecoder.ID_TYPES.get(id_type, "Unknown")`
(src/src/remote_id_decoder.py:140). -/
def idTypeName (n : Nat) : Str :=
  if n = 0 then strCodes "None"
  else if n = 1 then strCodes "Serial Number"
  else if n = 2 then strCodes "CAA Registration ID"
  else if n = 3 then strCodes "UTM UUID"
  else if n = 4 then strCodes "Specific Session ID"
  else strCodes "Unknown"

/-- Outcome of one iteration of the `while` loop of
`_parse_remote_id_messages`: either the loop exits (loop condition false,
or a `break`) with the record so far, or it continues at a new offset. -/
inductive ParseStep where
  | halt (r : RemoteIDData)
  | next (off : Nat) (r : RemoteIDData)
  deriving Repr

/-- Apply a record transformation to the record carried by a step. -/
def ParseStep.mapRecord (f : RemoteIDData → RemoteIDData) : ParseStep → ParseStep
  | .halt r => .halt (f r)
  | .next o r => .next o (f r)

/-- The Basic ID branch (type 0) of `_parse_remote_id_messages`
(src/src/remote_id_decoder.py:365); `off` is the offset just past the type
byte. -/
def stepBasicID (data : List Nat) (off : Nat) (r : RemoteIDData) : ParseStep :=
  let remaining := data.length - off
  if remaining ≥ 21 then
    let id_type := data.getD off 0
    let uas_id_bytes := (data.drop (off + 1)).take 20
    let r := { r with
      uas_id_type := some (idTypeName id_type),
      uas_id := some (decodePrintable uas_id_bytes) }
    let adv : Nat :=
      if remaining ≥ 23 ∧ data.getD (off + 21) 0 = 0 ∧ data.getD (off + 22) 0 = 0
      then 23 else 21
    .next (off + adv) r
  else
    .next off r

/-- The Location/Vector branch (type 1) of `_parse_remote_id_messages`
(src/src/remote_id_decoder.py:378). -/
def stepLocation (data : List Nat) (off : Nat) (r : RemoteIDData) : ParseStep :=
  if off + 23 ≤ data.length then
    let status := data.getD off 0
    let direction := data.getD (off + 1) 0
    let speed_encoded := data.getD (off + 2) 0
    let vspeed_encoded := sint8 (data.getD (off + 3) 0)
    let lat_encoded := sint32LE (data.getD (off + 4) 0) (data.getD (off + 5) 0)
      (data.getD (off + 6) 0) (data.getD (off + 7) 0)
    let lon_encoded := sint32LE (data.getD (off + 8) 0) (data.getD (off + 9) 0)
      (data.getD (off + 10) 0) (data.getD (off + 11) 0)
    let alt_encoded := sint16LE (data.getD (off + 12) 0) (data.getD (off + 13) 0)
    let height_encoded := sint16LE (data.getD (off + 14) 0) (data.getD (off + 15) 0)
    -- the four `if ...: remote_id.x = v` conditional assignments are
    -- expressed field-wise: assign the new value or keep the old one
    let r := { r with
      status := some (if status &&& 15 ≠ 0 then strCodes "Airborne" else strCodes "Ground"),
      direction := if direction ≠ 255 then some ((direction : ℚ)) else none,
      speed := if speed_encoded ≠ 255 then some (mkRat speed_encoded 4) else none,
      vertical_speed :=
        if vspeed_encoded ≠ 127 then some (mkRat vspeed_encoded 2) else none,
      latitude := if lat_encoded ≠ 0 then some (mkRat lat_encoded 10000000) else r.latitude,
      longitude := if lon_encoded ≠ 0 then some (mkRat lon_encoded 10000000) else r.longitude,
      altitude_msl := if alt_encoded ≠ -1000 then some (mkRat alt_encoded 2) else r.altitude_msl,
      height := if height_encoded ≠ -1000 then some (mkRat height_encoded 2) else r.height }
    .next (off + 23) r
  else
    .next off r

/-- The Authentication branch (type 2) of `_parse_remote_id_messages`
(src/src/remote_id_decoder.py:425); payload overrun is a `break`. -/
def stepAuth (data : List Nat) (off : Nat) (r : RemoteIDData) : ParseStep :=
  if off + 4 ≤ data.length then
    let a_type := data.getD off 0
    let a_page := data.getD (off + 1) 0
    let a_last := data.getD (off + 2) 0
    let a_len := data.getD (off + 3) 0
    let off2 := off + 4
    if off2 + a_len ≤ data.length then
      let r := { r with
        auth_type := some a_type,
        auth_page_index := some a_page,
        auth_last_page_index := some a_last,
        auth_payload := some ((data.drop off2).take a_len) }
      .next (off2 + a_len) r
    else .halt r
  else
    .next off r

/-- The Self ID branch (type 3) of `_parse_remote_id_messages`
(src/src/remote_id_decoder.py:443); a short payload is a `break`. -/
def stepSelfID (data : List Nat) (off : Nat) (r : RemoteIDData) : ParseStep :=
  if off + 24 ≤ data.length then
    let text_bytes := (data.drop (off + 1)).take 23
    .next (off + 24) { r with self_id_text := some (decodePrintable text_bytes) }
  else .halt r

/-- The System branch (type 4) of `_parse_remote_id_messages`
(src/src/remote_id_decoder.py:453); a short payload is a `break`. -/
def stepSystem (data : List Nat) (off : Nat) (r : RemoteIDData) : ParseStep :=
  if off + 3 ≤ data.length then
    let r := { r with
      system_operator_location_type := some (data.getD off 0),
      system_eu_class := some (data.getD (off + 1) 0),
      system_category := some (data.getD (off + 2) 0) }
    .next (off + 3) r
  else .halt r

/-- The Operator ID branch (type 5) of `_parse_remote_id_messages`
(src/src/remote_id_decoder.py:466). -/
def stepOperatorID (data : List Nat) (off : Nat) (r : RemoteIDData) : ParseStep :=
  if off + 21 ≤ data.length then
    let op_id_bytes := (data.drop (off + 1)).take 20
    .next (off + 21) { r with operator_id := some (decodePrintable op_id_bytes) }
  else
    .next off r

/-- One iteration of the `while` loop of
`WiFiRemoteIDDecoder._parse_remote_id_messages`
(src/src/remote_id_decoder.py:347): loop-condition checks, then dispatch on
the message type byte (unknown types skip one extra byte). -/
def parseStep (data : List Nat) (offset : Nat) (r : RemoteIDData) : ParseStep :=
  if offset < data.length then
    if offset + 1 ≥ data.length then .halt r
    else
      let t := data.getD offset 0
      let off := offset + 1
      if t = 0 then stepBasicID data off r
      else if t = 1 then stepLocation data off r
      else if t = 2 then stepAuth data off r
      else if t = 3 then stepSelfID data off r
      else if t = 4 then stepSystem data off r
      else if t = 5 then stepOperatorID data off r
      else .next (offset + 2) r
  else .halt r

/-- Fuel-driven worker for `parseRemoteIDMessages`; each loop iteration of
the Python `while` advances `offset` by at least one, so `data.length` fuel
is always enough. -/
def parseMsgsAux (data : List Nat) : Nat → Nat → RemoteIDData → RemoteIDData
  | 0, _, r => r
  | fuel + 1, offset, r =>
    match parseStep data offset r with
    | .halt r => r
    | .next off r => parseMsgsAux data fuel off r

/-- `WiFiRemoteIDDecoder._parse_remote_id_messages`
(src/src/remote_id_decoder.py:347): walk the ASTM F3411 message stream in
`data`, filling fields of `r`. -/
def parseRemoteIDMessages (data : List Nat) (r : RemoteIDData) : RemoteIDData :=
  parseMsgsAux data data.length 0 r

/-- Result of `search_patterns_in_bytes`: the matched pattern family and,
for DJI matches with a usable NUL terminator, the extracted id. Only the
fields `decode_from_raw_bytes` consumes are kept. -/
structure PatternHit where
  ptype : Str
  uas_id : Option Str := none
  deriving DecidableEq, Repr

/-- `AUTHENTIC_PATTERNS` (src/src/remote_id_decoder.py:113) flattened in the
iteration order of the Python dict-of-lists. -/
def authenticPatterns : List (Str × Str) :=
  [(strCodes "dji_remote_id", strCodes "DJI-RID-"),
   (strCodes "dji_remote_id", strCodes "MAVIC"),
   (strCodes "dji_remote_id", strCodes "MINI"),
   (strCodes "dji_remote_id", strCodes "AIR"),
   (strCodes "dji_remote_id", strCodes "FPV"),
   (strCodes "astm_f3411", [13, 0]),
   (strCodes "astm_f3411", [37, 0]),
   (strCodes "astm_f3411", [26, 0]),
   (strCodes "opendroneid", [250, 11, 188])]

/-- Python `bytes.decode('ascii', errors='ignore')`: keep bytes below 128. -/
def asciiDecodeIgnore (b : List Nat) : Str := b.filter (· < 128)

/-- One candidate of `search_patterns_in_bytes`: the dict returned when
`pattern` occurs in `data`, else `none`. -/
def patternCandidate (ptype pattern data : Str) : Option PatternHit :=
  match findSubIdx pattern data with
  | none => none
  | some offset =>
    let remaining := data.drop offset
    if ptype = strCodes "dji_remote_id" ∧ remaining.length ≥ 20 then
      match findSubIdx [0] remaining with
      | some id_end =>
        if id_end > pattern.length then
          some { ptype := ptype, uas_id := some (asciiDecodeIgnore (remaining.take id_end)) }
        else some { ptype := ptype }
      | none => some { ptype := ptype }
    else some { ptype := ptype }

/-- `WiFiRemoteIDDecoder.search_patterns_in_bytes`
(src/src/remote_id_decoder.py:511): first authentic pattern found anywhere
in `data`, in declaration order. -/
def searchPatternsInBytes (data : List Nat) : Option PatternHit :=
  authenticPatterns.foldr
    (fun pr acc => match patternCandidate pr.1 pr.2 data with
      | some h => some h
      | none => acc)
    none

/-- ASCII whitespace stripped by Python `str.strip()`. -/
def isSpaceCode (c : Nat) : Bool := c = 9 || c = 10 || c = 11 || c = 12 || c = 13 || c = 32

/-- Python `str.strip()` on the ASCII-only strings this decoder builds. -/
def stripWS (s : Str) : Str :=
  ((s.dropWhile isSpaceCode).reverse.dropWhile isSpaceCode).reverse

/-- `is_valid_id` inside `decode_from_raw_bytes`
(src/src/remote_id_decoder.py:578): the id, with NULs, ASCII zeros, spaces
and dashes removed and whitespace stripped, must keep at least 3
characters. -/
def isValidId : Option Str → Bool
  | none => false
  | some s =>
    if s = [] then false
    else
      let cleaned := stripWS (s.filter (fun c => !(c = 0 || c = 48 || c = 32 || c = 45)))
      cleaned.length ≥ 3

/-- Python truthiness of an optional float: `None` and `0.0` are falsy. -/
def optQFalsy : Option ℚ → Bool
  | none => true
  | some q => q = 0

/-- Python truthiness of an optional string: present and non-empty. -/
def optStrTruthy : Option Str → Bool
  | none => false
  | some s => s ≠ []

/-- `WiFiRemoteIDDecoder.decode_from_raw_bytes`
(src/src/remote_id_decoder.py:560): structured ASTM parse, then pattern
fallback when no valid id and no latitude; always returns a record (the
Python function has a single `return remote_id`, never `None`). `now` is
the wall clock read by `datetime.now().timestamp()`. -/
def decodeFromRawBytes (raw : List Nat) (now : ℚ) : RemoteIDData :=
  let r : RemoteIDData := { timestamp := some now }
  let r := parseRemoteIDMessages raw r
  if !isValidId r.uas_id && optQFalsy r.latitude then
    match searchPatternsInBytes raw with
    | some p =>
      { r with
        uas_id := some (p.uas_id.getD (strCodes "PATTERN_" ++ p.ptype)),
        uas_id_type := some (strCodes "Pattern Detection (" ++ p.ptype ++ strCodes ")") }
    | none => r
  else r

/-- Scenario A bytes: Basic-ID, Serial, `DJI-TEST-001` NUL-padded. -/
def scenarioA : List Nat := [0, 1] ++ strCodes "DJI-TEST-001" ++ List.replicate 8 0

/-- Scenario B bytes: Location/Vector message (type, status, direction,
speed, vspeed, lat, lon, alt, height, 5 reserved zero bytes — 22 bytes in
total), with the little-endian fixed-point encodings of lat 123585000
(12.3585°), lon −15352000 (−1.5352°), alt 241 (120.5 m), height 90
(45.0 m) that the scenario names in decimal. -/
def scenarioB : List Nat :=
  [1, 1, 87, 49, 5,
   232, 193, 93, 7,
   64, 191, 21, 255,
   241, 0,
   90, 0,
   0, 0, 0, 0, 0]

/-- `is_plausible_ascii` as defined inside `_try_decode_from_bytes`
(src/main_gnuradio_wifi.py:435) and `BLERemoteIDScanner._try_decode`
(src/src/ble_scanner.py:78): non-empty, length 6–32, all printable ASCII. -/
def isPlausibleAscii (s : Str) : Bool :=
  if s = [] then false
  else if s.length < 6 || 32 < s.length then false
  else s.all isPrintable

/-- The four accepted id types (lowercased), shared by the BLE filter and
the Wi-Fi suffix-scan filter. -/
def allowedTypesScan : List Str :=
  [strCodes "serial number", strCodes "caa registration id",
   strCodes "utm uuid", strCodes "specific session id"]

/-- The allowed types of the first Wi-Fi attempt
(src/main_gnuradio_wifi.py:429), which additionally lists
`"pattern detection"`. -/
def allowedTypesWifiFirst : List Str :=
  allowedTypesScan ++ [strCodes "pattern detection"]

/-- Acceptance test of the first attempt in `_try_decode_from_bytes`
(src/main_gnuradio_wifi.py:422–449): id of an allowed type and plausible,
or a pattern detection, or latitude and longitude both present. -/
def wifiFirstAccept (rid : RemoteIDData) : Bool :=
  let has_location := rid.latitude.isSome && rid.longitude.isSome
  let uas_id := rid.uas_id.getD []
  let ty := lowerStr (rid.uas_id_type.getD [])
  let is_pattern_detection := containsSub (strCodes "pattern detection") ty
  let id_ok := (allowedTypesWifiFirst.contains ty && isPlausibleAscii uas_id)
    || is_pattern_detection
  id_ok || has_location

/-- Acceptance test of the Wi-Fi suffix-scan loop
(src/main_gnuradio_wifi.py:452–479) and of both BLE attempts
(src/src/ble_scanner.py:69–121): allowed id type and plausible id, or
location present. -/
def scanAccept (rid : RemoteIDData) : Bool :=
  let has_location := rid.latitude.isSome && rid.longitude.isSome
  let uas_id := rid.uas_id.getD []
  let ty := lowerStr (rid.uas_id_type.getD [])
  let id_ok := allowedTypesScan.contains ty && isPlausibleAscii uas_id
  id_ok || has_location

/-- The suffix start positions the Wi-Fi tolerance scan re-tries:
`for i in range(max(0, n - 128))` (src/main_gnuradio_wifi.py:453). -/
def wifiScanStarts (data : List Nat) : List Nat := List.range (data.length - 128)

/-- The suffix start positions the BLE tolerance scan re-tries:
`for i in range(max(0, n - 64))` (src/src/ble_scanner.py:95). -/
def bleScanStarts (data : List Nat) : List Nat := List.range (data.length - 64)

/-- The suffix-scan loop shared by `_try_decode_from_bytes` and
`BLERemoteIDScanner._try_decode`: decode `data[i:]` for each start `i` in
turn and return the first record the filter accepts. -/
def scanLoop (now : ℚ) (accept : RemoteIDData → Bool) (data : List Nat) :
    List Nat → Option RemoteIDData
  | [] => none
  | i :: rest =>
    let rid := decodeFromRawBytes (data.drop i) now
    if accept rid then some rid else scanLoop now accept data rest

/-- `GNURadioWiFiRemoteIDSystem._try_decode_from_bytes`
(src/main_gnuradio_wifi.py:419): whole-payload attempt with the wider
filter, then the bounded suffix scan with the narrower one. -/
def tryDecodeFromBytes (data : List Nat) (now : ℚ) : Option RemoteIDData :=
  let rid := decodeFromRawBytes data now
  if wifiFirstAccept rid then some rid
  else scanLoop now scanAccept data (wifiScanStarts data)

/-- `BLERemoteIDScanner._try_decode` (src/src/ble_scanner.py:69):
whole-payload attempt, then the suffix scan over the first `n - 64`
positions, both with the same filter. -/
def bleTryDecode (data : List Nat) (now : ℚ) : Option RemoteIDData :=
  let rid := decodeFromRawBytes data now
  if scanAccept rid then some rid
  else scanLoop now scanAccept data (bleScanStarts data)

/-- One 802.11 information element as parsed by
`_parse_information_elements` (src/src/remote_id_decoder.py:264). -/
structure InfoElement where
  id : Nat
  len : Nat
  data : List Nat
  deriving DecidableEq, Repr

/-- Fuel-driven worker for `parseInformationElements`; each iteration
advances the offset by at least two. -/
def parseIEsAux (d : List Nat) : Nat → Nat → List InfoElement
  | 0, _ => []
  | fuel + 1, offset =>
    if offset + 2 < d.length then
      let ie_id := d.getD offset 0
      let ie_len := d.getD (offset + 1) 0
      if offset + 2 + ie_len > d.length then []
      else
        { id := ie_id, len := ie_len, data := (d.drop (offset + 2)).take ie_len } ::
          parseIEsAux d fuel (offset + 2 + ie_len)
    else []

/-- `WiFiRemoteIDDecoder._parse_information_elements`
(src/src/remote_id_decoder.py:264): split a body into (id, length, value)
triples, stopping at a length overrun. -/
def parseInformationElements (d : List Nat) : List InfoElement :=
  parseIEsAux d d.length 0

/-- Wi-Fi Alliance OpenDroneID OUI `FA-0B-BC`. -/
def odidOUI : List Nat := [250, 11, 188]

/-- `WiFiRemoteIDDecoder.extract_remote_id`
(src/src/remote_id_decoder.py:296): walk the vendor-specific IEs with the
OpenDroneID OUI, accumulate messages into one record, and return it only if
`uas_id` or `latitude` is truthy. -/
def extractRemoteID (ies : List InfoElement) (now : ℚ) : Option RemoteIDData :=
  let r0 : RemoteIDData := { timestamp := some now }
  let r := ies.foldl
    (fun r ie =>
      if ie.id = 221 then
        if ie.data.length < 4 then r
        else if ie.data.take 3 = odidOUI then
          if ie.data.length > 4 then parseRemoteIDMessages (ie.data.drop 4) r else r
        else r
      else r)
    r0
  if optStrTruthy r.uas_id || !optQFalsy r.latitude then some r else none

/-- The Wi-Fi beacon emission path of
`GNURadioWiFiRemoteIDSystem._process_wifi_pdu`
(src/main_gnuradio_wifi.py:394–405): parse the frame as a beacon (header of
at least 36 bytes, IEs from offset 36), extract the Remote ID, and emit it
(`_handle_remote_id`, method `wifi_beacon`) whenever `uas_id` is truthy. -/
def processBeaconPath (frame : List Nat) (now : ℚ) : Option RemoteIDData :=
  if frame.length < 36 then none
  else
    match extractRemoteID (parseInformationElements (frame.drop 36)) now with
    | some rid => if optStrTruthy rid.uas_id then some rid else none
    | none => none

/-- The emission invariant of spec §3: recognized id type with a printable
id of length 6–32, or position present and non-zero, or pattern-detection
provenance (recognizable from the `uas_id_type` tag the decoder writes). -/
def emissionInvariant (r : RemoteIDData) : Bool :=
  let ty := lowerStr (r.uas_id_type.getD [])
  (allowedTypesScan.contains ty && isPlausibleAscii (r.uas_id.getD []))
  || (!optQFalsy r.latitude && !optQFalsy r.longitude)
  || containsSub (strCodes "pattern detection") ty

/-- A beacon frame whose OpenDroneID vendor IE carries a Basic-ID message
with id-type 1 and twenty `0xFF` id bytes: the printable decode falls back
to a 40-character hex string, so the emitted record has a recognized type
but an implausible id and no position. -/
def exBeaconFrame : List Nat :=
  List.replicate 36 0 ++ [221, 26] ++ odidOUI ++ [0] ++ [0, 1] ++ List.replicate 20 255


/-- The last `k` suffix start positions of `data` — the set the claim says
the tolerance scan is restricted to. -/
def lastKStarts (k : Nat) (data : List Nat) : List Nat :=
  (List.range k).map (fun j => data.length - k + j)

/-- A 130-byte Wi-Fi payload: one junk byte, then a full Location/Vector
message, then padding bytes `0x06`. The structured first attempt fails (the
junk byte derails the walk into an aborted Authentication message), and the
suffix scan accepts at start position 1 — a position outside the last 128
bytes. -/
def exScanData : List Nat :=
  [6] ++ [1, 2, 87, 49, 5, 232, 193, 93, 7, 64, 191, 21, 255, 241, 0, 90, 0, 0, 0, 0, 0, 0] ++
    List.replicate 107 6


/-- A restricted zone (`DataFusion.RESTRICTED_ZONES` entry,
src/src/data_fusion.py:24): named circle with center and radius in km. The
name plays no role in the logic and is omitted. -/
structure Zone where
  center_lat : ℚ
  center_lon : ℚ
  radius_km : ℚ
  deriving DecidableEq, Repr

/-- First built-in default zone, `Zone militaire exemple`
(src/src/data_fusion.py:25): 5 km around (12.3714°, −1.5197°). -/
def zoneMilitary : Zone :=
  { center_lat := mkRat 123714 10000, center_lon := mkRat (-15197) 10000, radius_km := 5 }

/-- Second built-in default zone, `Aéroport Ouagadougou`
(src/src/data_fusion.py:31): 10 km around (12.3532°, −1.5124°). -/
def zoneAirport : Zone :=
  { center_lat := mkRat 123532 10000, center_lon := mkRat (-15124) 10000, radius_km := 10 }

/-- The built-in default `RESTRICTED_ZONES` (src/src/data_fusion.py:24). -/
def defaultZones : List Zone := [zoneMilitary, zoneAirport]

/-- `np.arctan2 y x` as the argument of the complex number `x + y i`. -/
noncomputable def atan2 (y x : ℝ) : ℝ := Complex.arg ⟨x, y⟩

/-- `np.radians`: degrees to radians. -/
noncomputable def radians (d : ℝ) : ℝ := d * Real.pi / 180

/-- `DataFusion._calculate_distance` (src/src/data_fusion.py:277): haversine
distance in meters on a sphere of radius 6371000 m. -/
noncomputable def haversineMeters (lat1 lon1 lat2 lon2 : ℝ) : ℝ :=
  let lat1_rad := radians lat1
  let lat2_rad := radians lat2
  let dlat := radians (lat2 - lat1)
  let dlon := radians (lon2 - lon1)
  let a := Real.sin (dlat / 2) ^ 2 +
    Real.cos lat1_rad * Real.cos lat2_rad * Real.sin (dlon / 2) ^ 2
  let c := 2 * atan2 (Real.sqrt a) (Real.sqrt (1 - a))
  6371000 * c

/-- The drone-position sub-dictionary `_assess_threat` reads
(latitude / longitude / altitude_agl keys). -/
structure FusedPosition where
  latitude : ℚ
  longitude : ℚ
  altitude_agl : ℚ
  deriving DecidableEq, Repr

/-- `DataFusion._check_restricted_zone` (src/src/data_fusion.py:371): false
without a position or with a falsy (zero) latitude or longitude, else true
iff some zone's haversine distance to the position is at most
`radius_km * 1000` meters. -/
def checkRestrictedZone (zones : List Zone) (pos : Option FusedPosition) : Prop :=
  match pos with
  | none => False
  | some p =>
    if p.latitude = 0 ∨ p.longitude = 0 then False
    else ∃ z ∈ zones,
      haversineMeters (p.latitude : ℝ) (p.longitude : ℝ) (z.center_lat : ℝ) (z.center_lon : ℝ)
        ≤ (z.radius_km : ℝ) * 1000

/-- The `remote_id` sub-dictionary of a fusion result as `_assess_threat`
reads it: `present` is Python truthiness of the whole dict, the other
fields are the values of the keys `_assess_threat` fetches with `.get`
(missing key ↦ `none`). -/
structure FusedRemoteID where
  present : Bool
  uas_id : Option Str := none
  position : Option FusedPosition := none
  speed : Option ℚ := none
  operator_distance : Option ℚ := none
  deriving DecidableEq, Repr

/-- Threat level of `DataFusion._assess_threat`. -/
inductive ThreatLevel where
  | LOW
  | MEDIUM
  | HIGH
  deriving DecidableEq, Repr

/-- The default `threat_thresholds` built by `DataFusion.__init__` with no
configuration (src/src/data_fusion.py:48): 120 m AGL, 20 m/s, 5000 m. -/
def defaultAltLimit : ℚ := 120
def defaultSpeedLimit : ℚ := 20
def defaultOpDistLimit : ℚ := 5000

/-- The score accumulation of `DataFusion._assess_threat`
(src/src/data_fusion.py:306), with the default thresholds. `in_zone` is the
value returned by the `_check_restricted_zone` call, passed in explicitly
because that check compares real-valued haversine distances. -/
def assessThreatScore (r : FusedRemoteID) (classification_is_valid : Bool)
    (in_zone : Bool) : ℤ :=
  let s : ℤ := 0
  let s := if !r.present then s + 20
    else if optStrTruthy r.uas_id then s - 10 else s
  let s := if r.position.isSome && in_zone then s + 50 else s
  let s := match r.position with
    | some p => if p.altitude_agl > defaultAltLimit then s + 20 else s
    | none => s
  let s := if r.speed.getD 0 > defaultSpeedLimit then s + 10 else s
  let s := if r.operator_distance.getD 0 > defaultOpDistLimit then s + 15 else s
  if !classification_is_valid then s + 10 else s

/-- The level thresholds of `DataFusion._assess_threat`
(src/src/data_fusion.py:358): HIGH at 50, MEDIUM at 20, else LOW. -/
def threatLevelOf (score : ℤ) : ThreatLevel :=
  if score ≥ 50 then .HIGH else if score ≥ 20 then .MEDIUM else .LOW

/-- `_assess_threat` as (score, level). -/
def assessThreat (r : FusedRemoteID) (classification_is_valid : Bool)
    (in_zone : Bool) : ℤ × ThreatLevel :=
  let score := assessThreatScore r classification_is_valid in_zone
  (score, threatLevelOf score)

/-- Scenario E position: at the center of the first default zone, 200 m
AGL. -/
def scenarioEPos : FusedPosition :=
  { latitude := mkRat 123714 10000, longitude := mkRat (-15197) 10000, altitude_agl := 200 }

/-- Scenario E fused record: Remote ID present, position inside the zone,
25 m/s, operator 6000 m away. -/
def scenarioERecord : FusedRemoteID :=
  { present := true, uas_id := some (strCodes "DJI-TEST-001"),
    position := some scenarioEPos, speed := some 25, operator_distance := some 6000 }


/-- `ch_to_freq_2g` (src/main_gnuradio_wifi.py:714): 2.4 GHz channel center
in Hz (the Python float is integral; modelled in `ℤ`). -/
def chToFreq2g (ch : ℤ) : ℤ := 2412000000 + 5000000 * (ch - 1)

/-- `ch_to_freq_5g` (src/main_gnuradio_wifi.py:716): 5 GHz channel center in
Hz. -/
def chToFreq5g (ch : ℤ) : ℤ := 5000000000 + 5000000 * ch

/-- `add_range_2g` (src/main_gnuradio_wifi.py:719): channels `a..b`
restricted to 1..13. -/
def addRange2g (a b : ℤ) : List ℤ :=
  ((List.range (if a ≤ b then (b - a).toNat + 1 else 0)).map (fun i => a + (i : ℤ))).filterMap
    (fun ch => if 1 ≤ ch ∧ ch ≤ 13 then some (chToFreq2g ch) else none)

/-- `add_list_5g` (src/main_gnuradio_wifi.py:725). -/
def addList5g (l : List ℤ) : List ℤ := l.map chToFreq5g

/-- The common UNII channel list used for `all` and `5g:common`. -/
def common5gChannels : List ℤ := [36, 40, 44, 48, 149, 153, 157, 161]

/-- Python `range(a, b + 1, 4)` over integers. -/
def rangeStep4 (a b : ℤ) : List ℤ :=
  (List.range (if a ≤ b then (b - a).toNat / 4 + 1 else 0)).map (fun i => a + 4 * (i : ℤ))

/-- Python `str.strip()` over a character list. -/
def trimChars (s : List Char) : List Char :=
  ((s.dropWhile Char.isWhitespace).reverse.dropWhile Char.isWhitespace).reverse

/-- Python `str.lower()` over a character list (ASCII letters; the channel
expressions contain nothing else). -/
def lowerChars (s : List Char) : List Char :=
  s.map (fun c => if 'A' ≤ c ∧ c ≤ 'Z' then Char.ofNat (c.toNat + 32) else c)

/-- Split a character list at every occurrence of `sep`
(Python `str.split(sep)`). -/
def splitChar (sep : Char) : List Char → List (List Char)
  | [] => [[]]
  | c :: rest =>
    let r := splitChar sep rest
    if c = sep then [] :: r
    else match r with
      | [] => [[c]]
      | g :: gs => (c :: g) :: gs

/-- Python `s.split(sep, 1)`: split at the first occurrence only. -/
def splitOnceDash (s : List Char) : List Char × List Char :=
  let parts := splitChar '-' s
  (parts.headD [], (parts.tail.map (List.cons '-')).flatten.drop 1)

/-- Digits-only body of `int()`. -/
def digitsToNat : List Char → Option Nat
  | [] => none
  | l => l.foldlM (fun acc c => if c.isDigit then some (acc * 10 + (c.toNat - 48)) else none) 0

/-- Python `int(str)`: optional surrounding whitespace, optional sign, at
least one digit. -/
def parseIntChars (s : List Char) : Option ℤ :=
  let t := trimChars s
  match t with
  | '-' :: ds => (digitsToNat ds).map (fun n => -(n : ℤ))
  | '+' :: ds => (digitsToNat ds).map (fun n => (n : ℤ))
  | ds => (digitsToNat ds).map (fun n => (n : ℤ))

/-- One comma-separated part of the channel expression
(src/main_gnuradio_wifi.py:735–760); `none` models the `int()` exceptions
caught by the surrounding `except`. -/
def parseChannelPart (p : List Char) : Option (List ℤ) :=
  if p.take 3 = "2g:".toList then
    let rng := p.drop 3
    if rng.contains '-' then
      let ab := splitOnceDash rng
      match parseIntChars ab.1, parseIntChars ab.2 with
      | some a, some b => some (addRange2g a b)
      | _, _ => none
    else
      ((splitChar '/' rng).filter (· ≠ [])).mapM (fun tok => (parseIntChars tok).map chToFreq2g)
  else if p.take 3 = "5g:".toList then
    let rng := p.drop 3
    if rng = "common".toList then some (addList5g common5gChannels)
    else if rng.contains '-' then
      let ab := splitOnceDash rng
      match parseIntChars ab.1, parseIntChars ab.2 with
      | some a, some b => some ((rangeStep4 a b).flatMap (fun ch => addList5g [ch]))
      | _, _ => none
    else
      ((splitChar '/' rng).filter (· ≠ [])).mapM (fun tok => (parseIntChars tok).map chToFreq5g)
  else (parseIntChars p).map (fun c => [chToFreq2g c])

/-- Insert into a sorted duplicate-free list. -/
def insertSortedNoDup (x : ℤ) : List ℤ → List ℤ
  | [] => [x]
  | y :: ys =>
    if x < y then x :: y :: ys
    else if x = y then y :: ys
    else y :: insertSortedNoDup x ys

/-- Python `sorted(set(l))` for integer frequencies. -/
def dedupSort (l : List ℤ) : List ℤ := l.foldr insertSortedNoDup []

/-- The channel-plan parser of `main` (src/main_gnuradio_wifi.py:709–764):
lowercased and stripped, `all` expands to 2.4 GHz channels 1–13 plus the
common 5 GHz set; otherwise the comma-separated parts are parsed and the
result is `sorted(set(...))`; any `int()` error falls back to
channels 1/6/11. -/
def parseScanChannels (arg : String) : List ℤ :=
  let s := lowerChars (trimChars arg.toList)
  if s = [] then []
  else if s = "all".toList then addRange2g 1 13 ++ addList5g common5gChannels
  else
    let parts := ((splitChar ',' s).map trimChars).filter (· ≠ [])
    match parts.mapM parseChannelPart with
    | some lists => dedupSort lists.flatten
    | none => [2412000000, 2437000000, 2462000000]


/-- Result of `SignalPreprocessor.bandpass_filter`: either the input block
returned unchanged with a warning logged, or the 6th-order Butterworth
applied separately to the I and Q component sequences (the filtered sample
values themselves are floating-point DSP outside the scope of the claims,
so the application records the order and the two component inputs). -/
inductive BandpassApplication where
  | bypassed (output : List (ℚ × ℚ))
  | butterworthApplied (order : Nat) (iPart qPart : List ℚ)
  deriving DecidableEq, Repr

/-- `SignalPreprocessor.bandpass_filter` (src/src/preprocessing.py:90):
normalize the cutoffs by the Nyquist frequency; if `low <= 0 or high >= 1`
warn and return the input unchanged, else apply the Butterworth separately
to I and Q. -/
def bandpassFilter (sample_rate low_freq high_freq : ℚ) (order : Nat)
    (x : List (ℚ × ℚ)) : BandpassApplication :=
  let nyquist := sample_rate / 2
  let low := low_freq / nyquist
  let high := high_freq / nyquist
  if low ≤ 0 ∨ high ≥ 1 then .bypassed x
  else .butterworthApplied order (x.map Prod.fst) (x.map Prod.snd)

/-! ## Theorems about the claims -/

/-- C3 (code_bug): the Scenario B Location/Vector message is 22 bytes (type
byte plus 21 payload bytes), but the parser's guard `offset + 23 <=
len(data)` (src/src/remote_id_decoder.py:379) demands 23 payload bytes, so
on the exact scenario input no Location field is decoded at all (first
conjunct block). The field decodings themselves match the claim: with two
more trailing bytes present, every value decodes exactly as the scenario
expects (second conjunct block) — lat 12.3585°, lon −1.5352°, alt 120.5 m,
height 45.0 m, speed 12.25 m/s, direction 87, vertical speed 2.5 m/s,
status Airborne. The same off-by-two makes the repository's own
`test_remote_id_decoder` crash: its 45-byte test packet leaves `latitude =
None`, which the test then formats with `:.6f`. -/
theorem C3_scenarioB_locationDecode :
    ((decodeFromRawBytes scenarioB 0).latitude = none ∧
      (decodeFromRawBytes scenarioB 0).longitude = none ∧
      (decodeFromRawBytes scenarioB 0).altitude_msl = none ∧
      (decodeFromRawBytes scenarioB 0).height = none ∧
      (decodeFromRawBytes scenarioB 0).speed = none ∧
      (decodeFromRawBytes scenarioB 0).direction = none ∧
      (decodeFromRawBytes scenarioB 0).vertical_speed = none ∧
      (decodeFromRawBytes scenarioB 0).status = none) ∧
    ((decodeFromRawBytes (scenarioB ++ [0, 0]) 0).latitude = some (mkRat 123585000 10000000) ∧
      (decodeFromRawBytes (scenarioB ++ [0, 0]) 0).longitude = some (mkRat (-15352000) 10000000) ∧
      (decodeFromRawBytes (scenarioB ++ [0, 0]) 0).altitude_msl = some (mkRat 241 2) ∧
      (decodeFromRawBytes (scenarioB ++ [0, 0]) 0).height = some (mkRat 90 2) ∧
      (decodeFromRawBytes (scenarioB ++ [0, 0]) 0).speed = some (mkRat 49 4) ∧
      (decodeFromRawBytes (scenarioB ++ [0, 0]) 0).direction = some 87 ∧
      (decodeFromRawBytes (scenarioB ++ [0, 0]) 0).vertical_speed = some (mkRat 5 2) ∧
      (decodeFromRawBytes (scenarioB ++ [0, 0]) 0).status = some (strCodes "Airborne")) := by
  decide

/-- C6 (confirmed): parsing `2g:1-3,5g:36/40` yields exactly the channel
centers 2.412/2.417/2.422 GHz and 5.180/5.200 GHz, and the center formulas
are `2412 + 5·(ch−1)` MHz on 2.4 GHz and `5000 + 5·ch` MHz on 5 GHz. -/
theorem C6_channelPlan :
    parseScanChannels "2g:1-3,5g:36/40" =
      [2412000000, 2417000000, 2422000000, 5180000000, 5200000000] ∧
    (∀ ch : ℤ, chToFreq2g ch = (2412 + 5 * (ch - 1)) * 1000000) ∧
    (∀ ch : ℤ, chToFreq5g ch = (5000 + 5 * ch) * 1000000) := by
  refine ⟨by decide, fun ch => ?_, fun ch => ?_⟩ <;>
    (simp only [chToFreq2g, chToFreq5g]; ring)

/-- C10 (confirmed): `decode_from_raw_bytes` never returns `None` — in the
embedding it is a total function into `RemoteIDData` because the Python
body has a single `return remote_id` of the record it allocates. On the
empty input and on arbitrary garbage it returns the record with every
payload field absent (only the provenance timestamp set), and the validity
filter lives in the callers: `_try_decode_from_bytes` and the BLE
`_try_decode` reject those same records. -/
theorem C10_decodeTotalFilterInCallers :
    ∀ now : ℚ,
      decodeFromRawBytes [] now = { timestamp := some now } ∧
      decodeFromRawBytes [255, 254, 237] now = { timestamp := some now } ∧
      tryDecodeFromBytes [] now = none ∧
      bleTryDecode [] now = none ∧
      tryDecodeFromBytes [255, 254, 237] now = none ∧
      bleTryDecode [255, 254, 237] now = none := by
  intro now
  refine ⟨rfl, rfl, rfl, rfl, rfl, rfl⟩

/-- Overwrite the `timestamp` field, leaving the payload fields alone. -/
def setTimestamp (t : Option ℚ) (r : RemoteIDData) : RemoteIDData := { r with timestamp := t }

theorem stepBasicID_setTimestamp (data : List Nat) (t : Option ℚ) (off : Nat)
    (r : RemoteIDData) :
    stepBasicID data off (setTimestamp t r) =
      (stepBasicID data off r).mapRecord (setTimestamp t) := by
  simp only [stepBasicID, setTimestamp, ParseStep.mapRecord]
  split_ifs <;> rfl

theorem stepLocation_setTimestamp (data : List Nat) (t : Option ℚ) (off : Nat)
    (r : RemoteIDData) :
    stepLocation data off (setTimestamp t r) =
      (stepLocation data off r).mapRecord (setTimestamp t) := by
  simp only [stepLocation, setTimestamp, ParseStep.mapRecord]
  split_ifs <;> rfl

theorem stepAuth_setTimestamp (data : List Nat) (t : Option ℚ) (off : Nat)
    (r : RemoteIDData) :
    stepAuth data off (setTimestamp t r) =
      (stepAuth data off r).mapRecord (setTimestamp t) := by
  simp only [stepAuth, setTimestamp, ParseStep.mapRecord]
  split_ifs <;> rfl

theorem stepSelfID_setTimestamp (data : List Nat) (t : Option ℚ) (off : Nat)
    (r : RemoteIDData) :
    stepSelfID data off (setTimestamp t r) =
      (stepSelfID data off r).mapRecord (setTimestamp t) := by
  simp only [stepSelfID, setTimestamp, ParseStep.mapRecord]
  split_ifs <;> rfl

theorem stepSystem_setTimestamp (data : List Nat) (t : Option ℚ) (off : Nat)
    (r : RemoteIDData) :
    stepSystem data off (setTimestamp t r) =
      (stepSystem data off r).mapRecord (setTimestamp t) := by
  simp only [stepSystem, setTimestamp, ParseStep.mapRecord]
  split_ifs <;> rfl

theorem stepOperatorID_setTimestamp (data : List Nat) (t : Option ℚ) (off : Nat)
    (r : RemoteIDData) :
    stepOperatorID data off (setTimestamp t r) =
      (stepOperatorID data off r).mapRecord (setTimestamp t) := by
  simp only [stepOperatorID, setTimestamp, ParseStep.mapRecord]
  split_ifs <;> rfl

theorem parseStep_setTimestamp (data : List Nat) (t : Option ℚ) (offset : Nat)
    (r : RemoteIDData) :
    parseStep data offset (setTimestamp t r) =
      (parseStep data offset r).mapRecord (setTimestamp t) := by
  simp only [parseStep]
  split_ifs <;>
    simp only [stepBasicID_setTimestamp, stepLocation_setTimestamp, stepAuth_setTimestamp,
      stepSelfID_setTimestamp, stepSystem_setTimestamp, stepOperatorID_setTimestamp,
      ParseStep.mapRecord]

theorem parseMsgsAux_setTimestamp (data : List Nat) (t : Option ℚ) :
    ∀ fuel off r, parseMsgsAux data fuel off (setTimestamp t r) =
      setTimestamp t (parseMsgsAux data fuel off r) := by
  intro fuel
  induction fuel with
  | zero => intro off r; rfl
  | succ n ih =>
    intro off r
    rw [parseMsgsAux, parseMsgsAux, parseStep_setTimestamp]
    cases parseStep data off r with
    | halt r2 => rfl
    | next o r2 => exact ih o r2

theorem decodeFromRawBytes_setTimestamp (raw : List Nat) (t : ℚ) :
    decodeFromRawBytes raw t = setTimestamp (some t) (decodeFromRawBytes raw 0) := by
  show (let r := parseRemoteIDMessages raw { timestamp := some t }; _) = _
  simp only [decodeFromRawBytes, parseRemoteIDMessages]
  rw [show ({ timestamp := some t } : RemoteIDData) = setTimestamp (some t) { timestamp := some 0 }
      from rfl,
    parseMsgsAux_setTimestamp]
  set u := parseMsgsAux raw raw.length 0 { timestamp := some 0 } with hu
  show (if !isValidId u.uas_id && optQFalsy u.latitude then _ else _) = _
  split_ifs with hc
  · cases hsp : searchPatternsInBytes raw <;> (simp only [hsp]; try rfl)
  · rfl

/-- C9 (corrected): the decoder is deterministic in the byte buffer — two
runs agree on every field except `timestamp`, which
`decode_from_raw_bytes` sets to the wall clock of the call
(src/src/remote_id_decoder.py:572), so the records of two runs are *not*
equal as the claim states (see the counterexample). -/
theorem C9_decodeDeterministicUpToTimestamp :
    ∀ (raw : List Nat) (t1 t2 : ℚ),
      setTimestamp none (decodeFromRawBytes raw t1) =
        setTimestamp none (decodeFromRawBytes raw t2) := by
  intro raw t1 t2
  rw [decodeFromRawBytes_setTimestamp raw t1, decodeFromRawBytes_setTimestamp raw t2]
  rfl

/-- Haversine distance of a point to itself is zero. -/
theorem haversineMeters_self (lat lon : ℝ) : haversineMeters lat lon lat lon = 0 := by
  unfold haversineMeters atan2 radians
  simp only [sub_self, zero_mul, zero_div, Real.sin_zero, mul_zero, add_zero,
    ne_eq, OfNat.ofNat_ne_zero, not_false_eq_true, zero_pow, Real.sqrt_zero, sub_zero,
    Real.sqrt_one, zero_add]
  rw [show (⟨1, 0⟩ : ℂ) = 1 from rfl, Complex.arg_one]
  ring

set_option maxHeartbeats 4000000 in
/-- C5 (confirmed): the threat score is the sum of +50 for a position inside
a restricted zone (membership being the haversine-distance test of
`_check_restricted_zone`, whose result enters here as `z`), +20 for
altitude AGL above the default 120 m, +10 for speed above the default
20 m/s, +15 for operator distance above the default 5000 m, +20 when the
Remote ID dict is absent and −10 when a `uas_id` is present, and +10 for an
invalid classification; the level is HIGH iff score ≥ 50, MEDIUM iff
20 ≤ score < 50, LOW otherwise; Scenario E (position at the center of the
5 km default zone, AGL 200 m, speed 25 m/s, operator 6000 m) is inside the
zone and scores 85 = 50+20+10+15−10, rated HIGH. -/
theorem C5_threatAssessment :
    (∀ (r : FusedRemoteID) (cv z : Bool),
      assessThreatScore r cv z =
        (if r.position.isSome && z then 50 else 0) +
        (match r.position with
         | some p => if p.altitude_agl > defaultAltLimit then 20 else 0
         | none => 0) +
        (if r.speed.getD 0 > defaultSpeedLimit then 10 else 0) +
        (if r.operator_distance.getD 0 > defaultOpDistLimit then 15 else 0) +
        (if !r.present then 20 else if optStrTruthy r.uas_id then -10 else 0) +
        (if !cv then 10 else 0)) ∧
    (∀ (r : FusedRemoteID) (cv z : Bool),
      ((threatLevelOf (assessThreatScore r cv z) = .HIGH) ↔
        50 ≤ assessThreatScore r cv z) ∧
      ((threatLevelOf (assessThreatScore r cv z) = .MEDIUM) ↔
        20 ≤ assessThreatScore r cv z ∧ assessThreatScore r cv z < 50) ∧
      ((threatLevelOf (assessThreatScore r cv z) = .LOW) ↔
        assessThreatScore r cv z < 20)) ∧
    checkRestrictedZone defaultZones (some scenarioEPos) ∧
    assessThreat scenarioERecord true true = (85, .HIGH) := by
  refine ⟨?_, ?_, ?_, by decide⟩
  · rintro ⟨pres, uid, pos, sp, od⟩ cv z
    cases pos <;> (simp only [assessThreatScore]; split_ifs <;> omega)
  · intro r cv z
    refine ⟨?_, ?_, ?_⟩ <;> (unfold threatLevelOf; split_ifs <;> simp_all <;> omega)
  · have hne : ¬(scenarioEPos.latitude = 0 ∨ scenarioEPos.longitude = 0) := by decide
    show checkRestrictedZone defaultZones (some scenarioEPos)
    show (if scenarioEPos.latitude = 0 ∨ scenarioEPos.longitude = 0 then False
      else ∃ z ∈ defaultZones,
        haversineMeters (scenarioEPos.latitude : ℝ) (scenarioEPos.longitude : ℝ)
          (z.center_lat : ℝ) (z.center_lon : ℝ) ≤ (z.radius_km : ℝ) * 1000)
    rw [if_neg hne]
    refine ⟨zoneMilitary, by simp [defaultZones], ?_⟩
    show haversineMeters ((mkRat 123714 10000 : ℚ) : ℝ) ((mkRat (-15197) 10000 : ℚ) : ℝ)
        ((mkRat 123714 10000 : ℚ) : ℝ) ((mkRat (-15197) 10000 : ℚ) : ℝ) ≤ ((5 : ℚ) : ℝ) * 1000
    rw [haversineMeters_self]
    norm_num

/-- C7 counterexample: with a 25 MHz sample rate (Nyquist 12.5 MHz),
cutoffs 11.3–11.4 MHz both exceed 0.9·Nyquist = 11.25 MHz, so the claim
says the filter is bypassed — but the code's guard is `low <= 0 or
high >= 1` on the normalized cutoffs (src/src/preprocessing.py:113), so it
applies the Butterworth filter. -/
theorem C7_counterexample :
    (9 / 10 : ℚ) * (25000000 / 2) < 11300000 ∧
    (9 / 10 : ℚ) * (25000000 / 2) < 11400000 ∧
    11300000 ≤ (11400000 : ℚ) ∧
    bandpassFilter 25000000 11300000 11400000 6 [(1, 2)] =
      .butterworthApplied 6 [1] [2] := by
  refine ⟨by norm_num, by norm_num, by norm_num, ?_⟩
  unfold bandpassFilter
  rw [if_neg (by push_neg; constructor <;> norm_num)]
  rfl

/-- C7 (corrected): the band-pass step bypasses the Butterworth (returning
the input unchanged, with a warning logged) exactly when the low cutoff is
non-positive or the high cutoff reaches the Nyquist frequency — not at
0.9·Nyquist, and with no inversion (`low > high`) check; otherwise the
6th-order filter is applied separately to the I and Q components. -/
theorem C7_bandpassGuard (sr low high : ℚ) (x : List (ℚ × ℚ)) (h : 0 < sr) :
    (bandpassFilter sr low high 6 x = .bypassed x ↔ low ≤ 0 ∨ sr / 2 ≤ high) ∧
    (¬(low ≤ 0 ∨ sr / 2 ≤ high) →
      bandpassFilter sr low high 6 x =
        .butterworthApplied 6 (x.map Prod.fst) (x.map Prod.snd)) := by
  have hn : (0 : ℚ) < sr / 2 := by positivity
  have hiff : (low / (sr / 2) ≤ 0 ∨ high / (sr / 2) ≥ 1) ↔ (low ≤ 0 ∨ sr / 2 ≤ high) := by
    rw [ge_iff_le, div_le_iff₀ hn, zero_mul, le_div_iff₀ hn, one_mul]
  constructor
  · simp only [bandpassFilter]
    split_ifs with hc
    · simp only [true_iff]
      exact hiff.mp hc
    · constructor
      · intro h'
        exact absurd h' (by simp)
      · intro h'
        exact absurd (hiff.mpr h') hc
  · intro hne
    simp only [bandpassFilter]
    rw [if_neg (fun hc => hne (hiff.mp hc))]

/-- C7 witness: at sample rate 25 MHz a zero low cutoff triggers the
bypass, returning the input unchanged. -/
theorem C7_bandpassGuard_witness :
    bandpassFilter 25000000 0 9000000 6 [(1, 1)] = .bypassed [(1, 1)] :=
  ((C7_bandpassGuard 25000000 0 9000000 [(1, 1)] (by norm_num)).1).mpr (Or.inl le_rfl)

/-- The suffix-scan loop returns the decode of the first accepted start
position. -/
theorem scanLoop_eq_find (now : ℚ) (accept : RemoteIDData → Bool) (data : List Nat) :
    ∀ starts : List Nat,
      scanLoop now accept data starts =
        (starts.find? (fun i => accept (decodeFromRawBytes (data.drop i) now))).map
          (fun i => decodeFromRawBytes (data.drop i) now) := by
  intro starts
  induction starts with
  | nil => rfl
  | cons i rest ih =>
    simp only [scanLoop, List.find?]
    by_cases h : accept (decodeFromRawBytes (data.drop i) now)
    · simp [h]
    · simp [h, ih]

/-- C2 (corrected): the tolerance scan re-tries exactly the suffix start
positions `0 .. n−129` (Wi-Fi) and `0 .. n−65` (BLE) — all but the *last*
128 (resp. 64) bytes, the opposite of the claimed bound — and accepts the
record from the first start position whose decode passes the caller's
id/location filter. In particular no start position is re-tried at all for
inputs of at most 128 (resp. 64) bytes. -/
theorem C2_toleranceScanPositions :
    (∀ (data : List Nat) (now : ℚ),
      wifiScanStarts data = List.range (data.length - 128) ∧
      tryDecodeFromBytes data now =
        (if wifiFirstAccept (decodeFromRawBytes data now) then
          some (decodeFromRawBytes data now)
         else
          ((List.range (data.length - 128)).find?
              (fun i => scanAccept (decodeFromRawBytes (data.drop i) now))).map
            (fun i => decodeFromRawBytes (data.drop i) now))) ∧
    (∀ (data : List Nat) (now : ℚ),
      bleScanStarts data = List.range (data.length - 64) ∧
      bleTryDecode data now =
        (if scanAccept (decodeFromRawBytes data now) then
          some (decodeFromRawBytes data now)
         else
          ((List.range (data.length - 64)).find?
              (fun i => scanAccept (decodeFromRawBytes (data.drop i) now))).map
            (fun i => decodeFromRawBytes (data.drop i) now))) := by
  constructor <;> intro data now <;> refine ⟨rfl, ?_⟩
  · simp only [tryDecodeFromBytes, wifiScanStarts, scanLoop_eq_find]
  · simp only [bleTryDecode, bleScanStarts, scanLoop_eq_find]

set_option maxHeartbeats 4000000 in
/-- C2 counterexample: a 130-byte payload on which the Wi-Fi path's first
attempt fails, the code's scan (start positions 0 and 1) finds a record at
position 1, yet scanning only the last 128 start positions — the set the
claim allows — finds nothing. So the re-tried positions are not contained
in the last 128 bytes. -/
theorem C2_counterexample :
    wifiScanStarts exScanData = [0, 1] ∧
    wifiFirstAccept (decodeFromRawBytes exScanData 0) = false ∧
    (tryDecodeFromBytes exScanData 0).isSome = true ∧
    scanLoop 0 scanAccept exScanData (lastKStarts 128 exScanData) = none := by
  refine ⟨by decide, by decide, by decide, by decide⟩

/-- The record produced by decoding one Location/Vector message into a
fresh record, together with the sentinel properties claim C4 states about
it: each sentinel maps to an absent field and only then, and the decoded
value, when present, is the scaled raw value (never the sentinel passed
through). -/
def locationSentinelSpec (data : List Nat) (off : Nat) : Prop :=
  ∃ r : RemoteIDData,
    stepLocation data off ({} : RemoteIDData) = .next (off + 23) r ∧
    (r.altitude_msl = none ↔
      sint16LE (data.getD (off + 12) 0) (data.getD (off + 13) 0) = -1000) ∧
    (r.direction = none ↔ data.getD (off + 1) 0 = 255) ∧
    (r.speed = none ↔ data.getD (off + 2) 0 = 255) ∧
    (r.vertical_speed = none ↔ sint8 (data.getD (off + 3) 0) = 127) ∧
    r.direction = (if data.getD (off + 1) 0 = 255 then none
      else some ((data.getD (off + 1) 0 : ℚ))) ∧
    r.speed = (if data.getD (off + 2) 0 = 255 then none
      else some (mkRat (data.getD (off + 2) 0) 4)) ∧
    r.vertical_speed = (if sint8 (data.getD (off + 3) 0) = 127 then none
      else some (mkRat (sint8 (data.getD (off + 3) 0)) 2)) ∧
    r.altitude_msl = (if sint16LE (data.getD (off + 12) 0) (data.getD (off + 13) 0) = -1000
      then none
      else some (mkRat (sint16LE (data.getD (off + 12) 0) (data.getD (off + 13) 0)) 2))

/-- C4 (confirmed): decoding a Location/Vector message (23 payload bytes
available at `off`) maps each sentinel to an absent field and only then:
altitude None iff raw = −1000, direction None iff raw = 0xFF, speed None
iff raw = 0xFF, vertical speed None iff raw signed byte = 0x7F; a present
value is always the scaled non-sentinel raw value. -/
theorem C4_locationSentinels (data : List Nat) (off : Nat)
    (h : off + 23 ≤ data.length) : locationSentinelSpec data off := by
  refine ⟨_, by rw [stepLocation, if_pos h], ?_, ?_, ?_, ?_, ?_, ?_, ?_, ?_⟩
  · by_cases hc : sint16LE (data.getD (off + 12) 0) (data.getD (off + 13) 0) = -1000 <;>
      simp [hc]
  · by_cases hc : data.getD (off + 1) 0 = 255 <;> simp [hc]
  · by_cases hc : data.getD (off + 2) 0 = 255 <;> simp [hc]
  · by_cases hc : sint8 (data.getD (off + 3) 0) = 127 <;> simp [hc]
  · by_cases hc : data.getD (off + 1) 0 = 255 <;> simp [hc]
  · by_cases hc : data.getD (off + 2) 0 = 255 <;> simp [hc]
  · by_cases hc : sint8 (data.getD (off + 3) 0) = 127 <;> simp [hc]
  · by_cases hc : sint16LE (data.getD (off + 12) 0) (data.getD (off + 13) 0) = -1000 <;>
      simp [hc]

/-- C4 witness: the padded Scenario B buffer has a full Location payload at
offset 1, so the sentinel specification holds there concretely. -/
theorem C4_locationSentinels_witness :
    1 + 23 ≤ (scenarioB ++ [0, 0]).length ∧ locationSentinelSpec (scenarioB ++ [0, 0]) 1 :=
  ⟨by decide, C4_locationSentinels (scenarioB ++ [0, 0]) 1 (by decide)⟩

/-- The record carried by a parse step. -/
def ParseStep.record : ParseStep → RemoteIDData
  | .halt r => r
  | .next _ r => r

/-- The decoder's position fields are never zero when present: latitude and
longitude are only assigned from non-zero raw encodings. -/
def latlonNonzero (r : RemoteIDData) : Prop :=
  (∀ q, r.latitude = some q → q ≠ 0) ∧ (∀ q, r.longitude = some q → q ≠ 0)

theorem latOpt_nonzero {old : Option ℚ} (hold : ∀ q, old = some q → q ≠ 0)
    (l : Int) (d : Nat) (hd : d ≠ 0) :
    ∀ q, (if l ≠ 0 then some (mkRat l d) else old) = some q → q ≠ 0 := by
  intro q hq
  split at hq
  · next hl =>
    rw [Option.some.injEq] at hq
    subst hq
    exact fun h0 => hl ((Rat.mkRat_eq_zero hd).mp h0)
  · next => exact hold q hq

theorem stepBasicID_latlonNonzero (data : List Nat) (off : Nat) (r : RemoteIDData)
    (h : latlonNonzero r) : latlonNonzero ((stepBasicID data off r).record) := by
  simp only [stepBasicID, ParseStep.record]
  split_ifs <;> exact h

theorem stepLocation_latlonNonzero (data : List Nat) (off : Nat) (r : RemoteIDData)
    (h : latlonNonzero r) : latlonNonzero ((stepLocation data off r).record) := by
  unfold stepLocation
  by_cases hlen : off + 23 ≤ data.length
  · rw [if_pos hlen]
    exact ⟨latOpt_nonzero h.1 _ _ (by norm_num), latOpt_nonzero h.2 _ _ (by norm_num)⟩
  · rw [if_neg hlen]
    exact h

theorem stepAuth_latlonNonzero (data : List Nat) (off : Nat) (r : RemoteIDData)
    (h : latlonNonzero r) : latlonNonzero ((stepAuth data off r).record) := by
  simp only [stepAuth, ParseStep.record]
  split_ifs <;> exact h

theorem stepSelfID_latlonNonzero (data : List Nat) (off : Nat) (r : RemoteIDData)
    (h : latlonNonzero r) : latlonNonzero ((stepSelfID data off r).record) := by
  simp only [stepSelfID, ParseStep.record]
  split_ifs <;> exact h

theorem stepSystem_latlonNonzero (data : List Nat) (off : Nat) (r : RemoteIDData)
    (h : latlonNonzero r) : latlonNonzero ((stepSystem data off r).record) := by
  simp only [stepSystem, ParseStep.record]
  split_ifs <;> exact h

theorem stepOperatorID_latlonNonzero (data : List Nat) (off : Nat) (r : RemoteIDData)
    (h : latlonNonzero r) : latlonNonzero ((stepOperatorID data off r).record) := by
  simp only [stepOperatorID, ParseStep.record]
  split_ifs <;> exact h

theorem parseStep_latlonNonzero (data : List Nat) (offset : Nat) (r : RemoteIDData)
    (h : latlonNonzero r) : latlonNonzero ((parseStep data offset r).record) := by
  simp only [parseStep]
  split_ifs <;>
    first
      | exact h
      | exact stepBasicID_latlonNonzero _ _ _ h
      | exact stepLocation_latlonNonzero _ _ _ h
      | exact stepAuth_latlonNonzero _ _ _ h
      | exact stepSelfID_latlonNonzero _ _ _ h
      | exact stepSystem_latlonNonzero _ _ _ h
      | exact stepOperatorID_latlonNonzero _ _ _ h

theorem parseMsgsAux_latlonNonzero (data : List Nat) :
    ∀ fuel off r, latlonNonzero r → latlonNonzero (parseMsgsAux data fuel off r) := by
  intro fuel
  induction fuel with
  | zero => intro off r h; exact h
  | succ n ih =>
    intro off r h
    have hs := parseStep_latlonNonzero data off r h
    rw [parseMsgsAux]
    cases hstep : parseStep data off r with
    | halt r2 => rw [hstep] at hs; exact hs
    | next o r2 => rw [hstep] at hs; exact ih o r2 hs

theorem decodeFromRawBytes_latlonNonzero (raw : List Nat) (now : ℚ) :
    latlonNonzero (decodeFromRawBytes raw now) := by
  have hp : latlonNonzero (parseRemoteIDMessages raw { timestamp := some now }) :=
    parseMsgsAux_latlonNonzero raw raw.length 0 _
      ⟨fun q hq => Option.noConfusion hq, fun q hq => Option.noConfusion hq⟩
  simp only [decodeFromRawBytes, parseRemoteIDMessages]
  split_ifs
  · cases hsp : searchPatternsInBytes raw with
    | none => exact hp
    | some p => exact ⟨hp.1, hp.2⟩
  · exact hp

theorem scanAccept_invariant (r : RemoteIDData) (hll : latlonNonzero r)
    (h : scanAccept r = true) : emissionInvariant r = true := by
  simp only [scanAccept, Bool.or_eq_true, Bool.and_eq_true] at h
  simp only [emissionInvariant, Bool.or_eq_true, Bool.and_eq_true]
  rcases h with ⟨h1, h2⟩ | ⟨h1, h2⟩
  · exact Or.inl (Or.inl ⟨h1, h2⟩)
  · obtain ⟨a, ha⟩ := Option.isSome_iff_exists.mp h1
    obtain ⟨b, hb⟩ := Option.isSome_iff_exists.mp h2
    refine Or.inl (Or.inr ⟨?_, ?_⟩)
    · rw [ha]
      simpa [optQFalsy] using hll.1 a ha
    · rw [hb]
      simpa [optQFalsy] using hll.2 b hb

theorem wifiFirstAccept_invariant (r : RemoteIDData) (hll : latlonNonzero r)
    (h : wifiFirstAccept r = true) : emissionInvariant r = true := by
  simp only [wifiFirstAccept, Bool.or_eq_true, Bool.and_eq_true] at h
  simp only [emissionInvariant, Bool.or_eq_true, Bool.and_eq_true]
  rcases h with (⟨hmem, hpl⟩ | hpat) | ⟨h1, h2⟩
  · have hmem2 : lowerStr (r.uas_id_type.getD []) ∈ allowedTypesWifiFirst :=
      List.mem_of_elem_eq_true hmem
    have hmem' : lowerStr (r.uas_id_type.getD []) = strCodes "serial number" ∨
        lowerStr (r.uas_id_type.getD []) = strCodes "caa registration id" ∨
        lowerStr (r.uas_id_type.getD []) = strCodes "utm uuid" ∨
        lowerStr (r.uas_id_type.getD []) = strCodes "specific session id" ∨
        lowerStr (r.uas_id_type.getD []) = strCodes "pattern detection" := by
      simpa [allowedTypesWifiFirst, allowedTypesScan] using hmem2
    rcases hmem' with hty | hty | hty | hty | hty
    · exact Or.inl (Or.inl ⟨by rw [hty]; decide, hpl⟩)
    · exact Or.inl (Or.inl ⟨by rw [hty]; decide, hpl⟩)
    · exact Or.inl (Or.inl ⟨by rw [hty]; decide, hpl⟩)
    · exact Or.inl (Or.inl ⟨by rw [hty]; decide, hpl⟩)
    · exact Or.inr (by rw [hty]; decide)
  · exact Or.inr hpat
  · obtain ⟨a, ha⟩ := Option.isSome_iff_exists.mp h1
    obtain ⟨b, hb⟩ := Option.isSome_iff_exists.mp h2
    refine Or.inl (Or.inr ⟨?_, ?_⟩)
    · rw [ha]
      simpa [optQFalsy] using hll.1 a ha
    · rw [hb]
      simpa [optQFalsy] using hll.2 b hb

theorem scanLoop_emissionInvariant (now : ℚ) (data : List Nat) :
    ∀ starts r, scanLoop now scanAccept data starts = some r →
      emissionInvariant r = true := by
  intro starts
  induction starts with
  | nil => intro r h; exact Option.noConfusion h
  | cons i rest ih =>
    intro r h
    simp only [scanLoop] at h
    by_cases hacc : scanAccept (decodeFromRawBytes (data.drop i) now) = true
    · rw [if_pos hacc, Option.some.injEq] at h
      subst h
      exact scanAccept_invariant _ (decodeFromRawBytes_latlonNonzero _ _) hacc
    · rw [if_neg hacc] at h
      exact ih r h

/-- C1 (corrected for the beacon path, confirmed for the scan and BLE
paths): every record emitted by the Wi-Fi action/NAN tolerance-scan path
and by the BLE path satisfies the §3 invariant — a recognized id type with
a plausible printable id, or latitude and longitude both present and
non-zero, or pattern-detection provenance. (The Wi-Fi *beacon* path does
not check this invariant — see the counterexample.) -/
theorem C1_emissionInvariant :
    (∀ (data : List Nat) (now : ℚ) (r : RemoteIDData),
      tryDecodeFromBytes data now = some r → emissionInvariant r = true) ∧
    (∀ (data : List Nat) (now : ℚ) (r : RemoteIDData),
      bleTryDecode data now = some r → emissionInvariant r = true) := by
  constructor <;> intro data now r h
  · simp only [tryDecodeFromBytes] at h
    by_cases hacc : wifiFirstAccept (decodeFromRawBytes data now) = true
    · rw [if_pos hacc, Option.some.injEq] at h
      subst h
      exact wifiFirstAccept_invariant _ (decodeFromRawBytes_latlonNonzero _ _) hacc
    · rw [if_neg hacc] at h
      exact scanLoop_emissionInvariant now data _ r h
  · simp only [bleTryDecode] at h
    by_cases hacc : scanAccept (decodeFromRawBytes data now) = true
    · rw [if_pos hacc, Option.some.injEq] at h
      subst h
      exact scanAccept_invariant _ (decodeFromRawBytes_latlonNonzero _ _) hacc
    · rw [if_neg hacc] at h
      exact scanLoop_emissionInvariant now data _ r h

/-- C1 witness: the Scenario A Basic-ID payload is accepted by the Wi-Fi
scan path and the accepted record satisfies the invariant. -/
theorem C1_emissionInvariant_witness :
    tryDecodeFromBytes scenarioA 0 =
      some { uas_id := some (strCodes "DJI-TEST-001"),
             uas_id_type := some (strCodes "Serial Number"), timestamp := some 0 } ∧
    emissionInvariant
      { uas_id := some (strCodes "DJI-TEST-001"),
        uas_id_type := some (strCodes "Serial Number"), timestamp := some 0 } = true :=
  ⟨by decide, C1_emissionInvariant.1 scenarioA 0 _ (by decide)⟩

/-- C1 counterexample: the Wi-Fi beacon path (which emits whenever
`uas_id` is truthy) emits a record whose id is a 40-character hex fallback
with no position and no pattern provenance — violating the invariant the
claim asserts for the beacon path. -/
theorem C1_counterexample :
    (processBeaconPath exBeaconFrame 0).map emissionInvariant = some false := by decide

/-- C9 counterexample: two runs of the decoder on the same (empty) buffer,
one time-stamped 0 and one 1, return records that differ (in the
`timestamp` field), refuting "all fields of the two returned records are
equal". -/
theorem C9_counterexample :
    decodeFromRawBytes [] 0 ≠ decodeFromRawBytes [] 1 := by decide

/-! ### C8: the printable-string decoder -/

theorem utf8Step_ascii {b : Nat} (hb : b < 128) (rest : List Nat) :
    utf8Step b rest = (some b, 0) := by
  simp [utf8Step, hb]

theorem isCont_ge {c : Nat} (h : isCont c = true) : 128 ≤ c := by
  simp only [isCont, Bool.and_eq_true, decide_eq_true_eq] at h
  exact h.1

theorem contOK_ge {lead c : Nat} (h : contOK lead c = true) : 128 ≤ c := by
  simp only [contOK] at h
  split_ifs at h <;>
    first
      | (simp only [Bool.and_eq_true, decide_eq_true_eq] at h; omega)
      | exact isCont_ge h

/-- Bytes consumed past the lead byte are always continuation bytes, hence
at least `0x80`. -/
theorem utf8Step_consumed (b : Nat) (rest : List Nat) :
    ∀ c ∈ rest.take (utf8Step b rest).2, 128 ≤ c := by
  unfold utf8Step
  split_ifs with h1 h2 h3 h4
  · simp
  · simp
  · rcases rest with _ | ⟨c1, tl⟩
    · simp
    · cases hc : isCont c1 with
      | false => simp [hc]
      | true =>
        have hb1 := isCont_ge hc
        simp [hc]
        omega
  · rcases rest with _ | ⟨c1, _ | ⟨c2, tl⟩⟩
    · simp
    · cases hc : contOK b c1 with
      | false => simp [hc]
      | true =>
        have hb1 := contOK_ge hc
        simp [hc]
        omega
    · cases hc1 : contOK b c1 with
      | false => simp [hc1]
      | true =>
        have hb1 := contOK_ge hc1
        cases hc2 : isCont c2 with
        | false =>
          simp [hc1, hc2]
          omega
        | true =>
          have hb2 := isCont_ge hc2
          simp [hc1, hc2]
          omega
  · rcases rest with _ | ⟨c1, _ | ⟨c2, _ | ⟨c3, tl⟩⟩⟩
    · simp
    · cases hc : contOK b c1 with
      | false => simp [hc]
      | true =>
        have hb1 := contOK_ge hc
        simp [hc]
        omega
    · cases hc1 : contOK b c1 with
      | false => simp [hc1]
      | true =>
        have hb1 := contOK_ge hc1
        cases hc2 : isCont c2 with
        | false =>
          simp [hc1, hc2]
          omega
        | true =>
          have hb2 := isCont_ge hc2
          simp [hc1, hc2]
          omega
    · cases hc1 : contOK b c1 with
      | false => simp [hc1]
      | true =>
        have hb1 := contOK_ge hc1
        cases hc2 : isCont c2 with
        | false =>
          simp [hc1, hc2]
          omega
        | true =>
          have hb2 := isCont_ge hc2
          cases hc3 : isCont c3 with
          | false =>
            simp [hc1, hc2, hc3]
            omega
          | true =>
            have hb3 := isCont_ge hc3
            simp [hc1, hc2, hc3]
            omega
  · simp

/-- Code points emitted for a non-ASCII lead byte are at least `0x80`. -/
theorem utf8Step_cp_ge {b : Nat} (hb : 128 ≤ b) (rest : List Nat) :
    ∀ cp, (utf8Step b rest).1 = some cp → 128 ≤ cp := by
  intro cp h
  unfold utf8Step at h
  split_ifs at h with h1 h2 h3 h4
  · omega
  · rcases rest with _ | ⟨c1, tl⟩
    · simp at h
    · cases hc : isCont c1 with
      | false => simp [hc] at h
      | true =>
        simp [hc] at h
        omega
  · rcases rest with _ | ⟨c1, _ | ⟨c2, tl⟩⟩
    · simp at h
    · cases hc : contOK b c1 with
      | false => simp [hc] at h
      | true => simp [hc] at h
    · cases hc1 : contOK b c1 with
      | false => simp [hc1] at h
      | true =>
        cases hc2 : isCont c2 with
        | false => simp [hc1, hc2] at h
        | true =>
          simp [hc1, hc2] at h
          by_cases hb224 : b = 224
          · subst hb224
            simp [contOK] at hc1
            omega
          · omega
  · rcases rest with _ | ⟨c1, _ | ⟨c2, _ | ⟨c3, tl⟩⟩⟩
    · simp at h
    · cases hc : contOK b c1 with
      | false => simp [hc] at h
      | true => simp [hc] at h
    · cases hc1 : contOK b c1 with
      | false => simp [hc1] at h
      | true =>
        cases hc2 : isCont c2 with
        | false => simp [hc1, hc2] at h
        | true => simp [hc1, hc2] at h
    · cases hc1 : contOK b c1 with
      | false => simp [hc1] at h
      | true =>
        cases hc2 : isCont c2 with
        | false => simp [hc1, hc2] at h
        | true =>
          cases hc3 : isCont c3 with
          | false => simp [hc1, hc2, hc3] at h
          | true =>
            simp [hc1, hc2, hc3] at h
            by_cases hb240 : b = 240
            · subst hb240
              simp [contOK] at hc1
              omega
            · omega

/-- One unfolding of the UTF-8 decoder on a non-empty input. -/
theorem utf8DecodeIgnore_cons (b : Nat) (rest : List Nat) :
    utf8DecodeIgnore (b :: rest) =
      (match (utf8Step b rest).1 with | some cp => [cp] | none => []) ++
        utf8DecodeIgnoreAux rest.length (rest.drop (utf8Step b rest).2) := by
  show utf8DecodeIgnoreAux (rest.length + 1) (b :: rest) = _
  simp only [utf8DecodeIgnoreAux]

/-- Any fuel of at least the input length computes `utf8DecodeIgnore`. -/
theorem utf8DecodeIgnoreAux_eq :
    ∀ (fuel : Nat) (l : List Nat), l.length ≤ fuel →
      utf8DecodeIgnoreAux fuel l = utf8DecodeIgnore l := by
  intro fuel
  induction fuel using Nat.strong_induction_on with
  | _ fuel ih =>
    match fuel with
    | 0 =>
      intro l hl
      have : l = [] := List.eq_nil_of_length_eq_zero (by omega)
      subst this
      rfl
    | f + 1 =>
      intro l hl
      match l with
      | [] => rfl
      | b :: rest =>
        have hlrest : rest.length ≤ f := by
          simp only [List.length_cons] at hl
          omega
        have hdrop : (rest.drop (utf8Step b rest).2).length ≤ rest.length := by
          simp [List.length_drop]
        rw [utf8DecodeIgnore_cons]
        simp only [utf8DecodeIgnoreAux]
        congr 1
        rw [ih f (Nat.lt_succ_self f) _ (le_trans hdrop hlrest),
          ih rest.length (Nat.lt_succ_of_le hlrest) _ hdrop]

/-- Filtering for printable ASCII commutes with the UTF-8 decode: ASCII
bytes pass through unchanged, and continuation bytes, invalid bytes and
multi-byte code points are all at least `0x80`, hence non-printable. -/
theorem utf8DecodeIgnore_filter_printable :
    ∀ (n : Nat) (l : List Nat), l.length ≤ n →
      (utf8DecodeIgnore l).filter isPrintable = l.filter isPrintable := by
  intro n
  induction n with
  | zero =>
    intro l hl
    have : l = [] := List.eq_nil_of_length_eq_zero (by omega)
    subst this
    rfl
  | succ n ih =>
    intro l hl
    match l with
    | [] => rfl
    | b :: rest =>
      have hdec : utf8DecodeIgnore (b :: rest) =
          (match (utf8Step b rest).1 with | some cp => [cp] | none => []) ++
            utf8DecodeIgnore (rest.drop (utf8Step b rest).2) := by
        rw [utf8DecodeIgnore_cons, utf8DecodeIgnoreAux_eq rest.length _ (by simp)]
      have hlrest : rest.length ≤ n := by
        simp only [List.length_cons] at hl
        omega
      rw [hdec, List.filter_append,
        ih (rest.drop (utf8Step b rest).2) (le_trans (by simp) hlrest)]
      by_cases hb : b < 128
      · simp only [utf8Step_ascii hb rest, List.drop_zero]
        cases hp : isPrintable b <;> simp [List.filter_cons, hp]
      · have hbge : 128 ≤ b := by omega
        have hbnp : ¬ isPrintable b = true := by
          simp only [isPrintable, Bool.and_eq_true, decide_eq_true_eq]
          omega
        have hdropfilter : (rest.drop (utf8Step b rest).2).filter isPrintable =
            rest.filter isPrintable := by
          conv_rhs => rw [← List.take_append_drop (utf8Step b rest).2 rest]
          rw [List.filter_append]
          have hnil : (rest.take (utf8Step b rest).2).filter isPrintable = [] := by
            rw [List.filter_eq_nil_iff]
            intro c hc
            have := utf8Step_consumed b rest c hc
            simp only [isPrintable, Bool.and_eq_true, decide_eq_true_eq]
            omega
          rw [hnil, List.nil_append]
        rw [hdropfilter]
        have hemit : (match (utf8Step b rest).1 with
            | some cp => [cp] | none => []).filter isPrintable = [] := by
          cases ho : (utf8Step b rest).1 with
          | none => rfl
          | some cp =>
            have := utf8Step_cp_ge hbge rest cp ho
            simp only [List.filter_cons, List.filter_nil]
            rw [if_neg (by simp only [isPrintable, Bool.and_eq_true, decide_eq_true_eq]; omega)]
        rw [hemit, List.nil_append, List.filter_cons_of_neg hbnp]

/-- Dropping elements that satisfy `q` does not change a filter by `p` when
`q` implies `¬ p`. -/
theorem filter_dropWhile_eq {p q : Nat → Bool} (hpq : ∀ x, q x = true → p x = false) :
    ∀ l : List Nat, (l.dropWhile q).filter p = l.filter p := by
  intro l
  induction l with
  | nil => rfl
  | cons a tl ih =>
    cases hq : q a with
    | false => simp [List.dropWhile_cons, hq]
    | true =>
      rw [List.dropWhile_cons, if_pos (by simp [hq]), ih,
        List.filter_cons_of_neg (by simp [hpq a hq])]

/-- Trimming trailing NULs does not change the printable characters. -/
theorem rstripNul_filter_printable (s : Str) :
    (rstripNul s).filter isPrintable = s.filter isPrintable := by
  unfold rstripNul
  rw [List.filter_reverse,
    filter_dropWhile_eq (by intro x hx; simp at hx; simp [hx, isPrintable]),
    ← List.filter_reverse, List.reverse_reverse]

/-- The printable-string decoder exactly as claim C8 words it: keep the
input bytes `0x20`–`0x7E` after trimming trailing NUL bytes, and fall back
to uppercase hex iff fewer than half of the input bytes survive. This
definition follows the claim's words, for comparison with
`decodePrintable`, which follows the source. -/
def claimedDecodePrintable (b : List Nat) : Str :=
  let printable := (rstripNul b).filter isPrintable
  if 2 * printable.length ≥ b.length then printable else hexUpper b

/-- C8 counterexample: on the two-byte ASCII input `AB` both bytes survive
(at least half), so the claim says `AB` is returned — but the code's
threshold is `max(6, len(s) // 2)` (src/src/remote_id_decoder.py:161), so
it falls back to the hex string `4142`. -/
theorem C8_counterexample :
    decodePrintable [65, 66] = strCodes "4142" ∧
    claimedDecodePrintable [65, 66] = [65, 66] ∧
    strCodes "4142" ≠ [65, 66] := by decide

/-- C8 (corrected): the kept characters are exactly the input bytes in
`0x20`–`0x7E`, in order (the UTF-8 decode and NUL trim drop nothing
printable), but the hex fallback triggers iff fewer than
`max(6, ⌊len(s)/2⌋)` characters survive, where `s` is the UTF-8-decoded,
NUL-trimmed string — not "half of the input bytes". -/
theorem C8_decodePrintable (b : List Nat) :
    (rstripNul (utf8DecodeIgnore b)).filter isPrintable = b.filter isPrintable ∧
    decodePrintable b =
      (if (b.filter isPrintable).length ≥
          max 6 ((rstripNul (utf8DecodeIgnore b)).length / 2)
        then b.filter isPrintable
        else hexUpper b) := by
  have h1 : (rstripNul (utf8DecodeIgnore b)).filter isPrintable = b.filter isPrintable := by
    rw [rstripNul_filter_printable, utf8DecodeIgnore_filter_printable b.length b le_rfl]
  refine ⟨h1, ?_⟩
  simp only [decodePrintable]
  rw [h1]

end DroneRID
